import Mathlib

/-!
Verification of the rnwallet repository's wallet-connection layer.

JS strings are embedded as `List Char`.  The client-side services
(`wallet.service.ts`, `deeplink.service.ts`, the polling loops in the home
screen) are translated directly from the source under `src/`.  The server's
session store (`server/src/routes/auth.ts`) is not shipped in `src/`; its
operations are modelled from the specification and the code excerpts in
`WALLET_CONNECTION_DIFFERENCES.md`, each such definition carrying a
`Modelled from the spec:` doc comment.
-/

namespace RnWallet

/-- JS strings, embedded as lists of characters. -/
abbrev Str := List Char

/-- Coerce a Lean string literal to the embedded string type. -/
def str (s : String) : Str := s.data

/-- Characters that `encodeURIComponent` leaves unescaped:
`A–Z a–z 0–9 - _ . ! ~ * ' ( )`. -/
def isUnreservedURIChar (c : Char) : Bool :=
  c.isAlphanum || c = '-' || c = '_' || c = '.' || c = '!' ||
    c = '~' || c = '*' || c = '\'' || c = '(' || c = ')'

/-- Lowercase hexadecimal digit for `n < 16` (as produced by
`Buffer.toString('hex')`). -/
def hexDigitLower (n : Nat) : Char :=
  if n < 10 then Char.ofNat ('0'.toNat + n) else Char.ofNat ('a'.toNat + (n - 10))

/-- Uppercase hexadecimal digit for `n < 16` (as used in percent-escapes). -/
def hexDigitUpper (n : Nat) : Char :=
  if n < 10 then Char.ofNat ('0'.toNat + n) else Char.ofNat ('A'.toNat + (n - 10))

/-- UTF-8 bytes of a character (used by `encodeURIComponent` for escapes). -/
def utf8BytesOf (c : Char) : List Nat :=
  let n := c.toNat
  if n < 0x80 then [n]
  else if n < 0x800 then [0xC0 + n / 64, 0x80 + n % 64]
  else if n < 0x10000 then [0xE0 + n / 4096, 0x80 + (n / 64) % 64, 0x80 + n % 64]
  else [0xF0 + n / 262144, 0x80 + (n / 4096) % 64, 0x80 + (n / 64) % 64, 0x80 + n % 64]

/-- `encodeURIComponent` on a single character: unreserved characters are kept,
all others are percent-escaped byte by byte. -/
def encodeURIComponentChar (c : Char) : Str :=
  if isUnreservedURIChar c then [c]
  else (utf8BytesOf c).flatMap (fun b => ['%', hexDigitUpper (b / 16), hexDigitUpper (b % 16)])

/-- JavaScript's `encodeURIComponent`. -/
def encodeURIComponent (s : Str) : Str := s.flatMap encodeURIComponentChar

/-- `urlWithParams.replace(/^https?:\/\//, '')` from `wallet.service.ts`:
strips a leading `https://` or `http://`. -/
def stripProtocol (u : Str) : Str :=
  if (str "https://").isPrefixOf u then u.drop 8
  else if (str "http://").isPrefixOf u then u.drop 7
  else u

/-- App-store download links of a wallet (from `wallet.service.ts`). -/
structure DownloadUrl where
  ios : Str
  android : Str
  deriving DecidableEq, Inhabited

/-- `WalletInfo` from `wallet.service.ts`. -/
structure WalletInfo where
  id : Str
  name : Str
  icon : Str
  deepLinkScheme : Str
  universalLink : Option Str := none
  color : Str
  supportsWalletConnect : Bool
  downloadUrl : DownloadUrl
  deriving DecidableEq, Inhabited

/-- The static `SUPPORTED_WALLETS` table from `wallet.service.ts`. -/
def SUPPORTED_WALLETS : List WalletInfo :=
  [ { id := str "metamask", name := str "MetaMask", icon := str "🦊",
      deepLinkScheme := str "metamask://",
      universalLink := some (str "https://metamask.app.link"),
      color := str "#F6851B", supportsWalletConnect := true,
      downloadUrl := { ios := str "https://apps.apple.com/app/metamask/id1438144202",
                       android := str "https://play.google.com/store/apps/details?id=io.metamask" } },
    { id := str "rainbow", name := str "Rainbow", icon := str "🌈",
      deepLinkScheme := str "rainbow://",
      universalLink := some (str "https://rainbow.me"),
      color := str "#FF6B6B", supportsWalletConnect := true,
      downloadUrl := { ios := str "https://apps.apple.com/app/rainbow-ethereum-wallet/id1457119021",
                       android := str "https://play.google.com/store/apps/details?id=me.rainbow" } },
    { id := str "trust", name := str "Trust Wallet", icon := str "🛡️",
      deepLinkScheme := str "trust://",
      universalLink := some (str "https://link.trustwallet.com"),
      color := str "#3375BB", supportsWalletConnect := true,
      downloadUrl := { ios := str "https://apps.apple.com/app/trust-crypto-bitcoin-wallet/id1288339409",
                       android := str "https://play.google.com/store/apps/details?id=com.wallet.crypto.trustapp" } },
    { id := str "coinbase", name := str "Coinbase Wallet", icon := str "💙",
      deepLinkScheme := str "cbwallet://",
      universalLink := some (str "https://go.cb-w.com"),
      color := str "#0052FF", supportsWalletConnect := true,
      downloadUrl := { ios := str "https://apps.apple.com/app/coinbase-wallet/id1278383455",
                       android := str "https://play.google.com/store/apps/details?id=org.toshi" } },
    { id := str "phantom", name := str "Phantom", icon := str "👻",
      deepLinkScheme := str "phantom://",
      universalLink := some (str "https://phantom.app"),
      color := str "#AB9FF2", supportsWalletConnect := false,
      downloadUrl := { ios := str "https://apps.apple.com/app/phantom-solana-wallet/id1598432977",
                       android := str "https://play.google.com/store/apps/details?id=app.phantom" } },
    { id := str "rabby", name := str "Rabby Wallet", icon := str "🐰",
      deepLinkScheme := str "rabby://",
      universalLink := some (str "https://rabby.io"),
      color := str "#8697FF", supportsWalletConnect := true,
      downloadUrl := { ios := str "https://apps.apple.com/app/rabby-wallet/id1609961064",
                       android := str "https://play.google.com/store/apps/details?id=com.debank.rabbymobile" } },
    { id := str "zerion", name := str "Zerion", icon := str "💎",
      deepLinkScheme := str "zerion://",
      color := str "#2962EF", supportsWalletConnect := true,
      downloadUrl := { ios := str "https://apps.apple.com/app/zerion-wallet-for-web3/id1456732565",
                       android := str "https://play.google.com/store/apps/details?id=io.zerion.android" } },
    { id := str "argent", name := str "Argent", icon := str "🔷",
      deepLinkScheme := str "argent://",
      color := str "#FF875B", supportsWalletConnect := true,
      downloadUrl := { ios := str "https://apps.apple.com/app/argent/id1358741926",
                       android := str "https://play.google.com/store/apps/details?id=im.argent.contractwalletclient" } } ]

/-- `buildWalletDeepLink` from `wallet.service.ts`: per-vendor deep-link URL
construction.  The `rainbow` branch interpolates `wallet.universalLink`, which
JavaScript renders as the text `undefined` when absent. -/
def buildWalletDeepLink (wallet : WalletInfo) (dappUrl : Str) (sessionId : Option Str) : Str :=
  let urlWithParams :=
    match sessionId with
    | some sid => dappUrl ++ str "?sid=" ++ sid ++ str "&roomId=" ++ sid
    | none => dappUrl
  let urlWithoutProtocol := stripProtocol urlWithParams
  if wallet.id = str "metamask" then
    wallet.deepLinkScheme ++ str "dapp?url=" ++ encodeURIComponent urlWithParams
  else if wallet.id = str "rainbow" then
    (wallet.universalLink.getD (str "undefined")) ++ str "/dapp/" ++ urlWithoutProtocol
  else if wallet.id = str "trust" then
    wallet.deepLinkScheme ++ str "open_url?url=" ++ encodeURIComponent urlWithParams
  else if wallet.id = str "coinbase" then
    wallet.deepLinkScheme ++ str "dapp?url=" ++ encodeURIComponent urlWithParams
  else if wallet.id = str "rabby" then
    wallet.deepLinkScheme ++ str "dapp/" ++ urlWithoutProtocol
  else if wallet.id = str "zerion" then
    wallet.deepLinkScheme ++ str "dapp/" ++ urlWithoutProtocol
  else if wallet.id = str "argent" then
    wallet.deepLinkScheme ++ str "app/dapp/" ++ urlWithoutProtocol
  else
    wallet.deepLinkScheme ++ str "dapp/" ++ urlWithoutProtocol

/-- An ASCII hexadecimal digit, the character class `[a-fA-F0-9]`. -/
def isHexDigitChar (c : Char) : Bool :=
  c.isDigit || ('a' ≤ c && c ≤ 'f') || ('A' ≤ c && c ≤ 'F')

/-- The regex `/^0x[a-fA-F0-9]{16}$/` (`SESSION_ID_PATTERN` in `app.config.ts`
and `SESSION_ID_REGEX` in `deeplink.service.ts`). -/
def SESSION_ID_PATTERN (s : Str) : Bool :=
  match s with
  | c0 :: c1 :: rest => c0 == '0' && c1 == 'x' && rest.length == 16 && rest.all isHexDigitChar
  | _ => false

/-- The regex `/^0x[a-fA-F0-9]{16}$/` as named in `deeplink.service.ts`. -/
def SESSION_ID_REGEX (s : Str) : Bool := SESSION_ID_PATTERN s

/-- The regex `/^0x[a-fA-F0-9]{40}$/` (`ADDRESS_REGEX`). -/
def ADDRESS_REGEX (s : Str) : Bool :=
  match s with
  | c0 :: c1 :: rest => c0 == '0' && c1 == 'x' && rest.length == 40 && rest.all isHexDigitChar
  | _ => false

/-- The regex `/^0x[a-fA-F0-9]{64}$/` (`TX_HASH_REGEX`). -/
def TX_HASH_REGEX (s : Str) : Bool :=
  match s with
  | c0 :: c1 :: rest => c0 == '0' && c1 == 'x' && rest.length == 64 && rest.all isHexDigitChar
  | _ => false

/-- A substring occurrence: `s` appears contiguously inside `t`. -/
def containsSeg (s t : Str) : Prop := ∃ a b, t = a ++ s ++ b

/-- `SESSION_TIMEOUT` from `app.config.ts`: ten minutes, in milliseconds. -/
def SESSION_TIMEOUT : Nat := 10 * 60 * 1000

/-- Result record of `openWallet` (`{ success: boolean; error?: string }`). -/
structure OpenWalletResult where
  success : Bool
  error : Option Str := none
  deriving DecidableEq

/-- `openWallet` from `wallet.service.ts`, with the platform primitives as
inputs: `canOpenURL` is the `Linking.canOpenURL` probe (which
`isWalletInstalled` applies to the wallet's `deepLinkScheme`), and
`openThrows` says whether `Linking.openURL` throws on a given URL (its
message determines which of the catch-branch texts is reported; the generic
one is used here).  The second component of the result collects the URLs
passed to `Linking.openURL`. -/
def openWallet (canOpenURL : Str → Bool) (openThrows : Str → Bool)
    (wallet : WalletInfo) (dappUrl : Str) (sessionId : Option Str) :
    OpenWalletResult × List Str :=
  let deepLink := buildWalletDeepLink wallet dappUrl sessionId
  if canOpenURL wallet.deepLinkScheme then
    if openThrows deepLink then
      ({ success := false, error := some (str "Failed to open wallet") }, [deepLink])
    else
      ({ success := true }, [deepLink])
  else
    ({ success := false,
       error := some (wallet.name ++ str " is not installed. Please install it first.") }, [])

/-- Parameters parsed out of a deep link, as validated by `validateDeepLink`
in `deeplink.service.ts`. -/
structure DeepLinkParams where
  sid : Option Str := none
  address : Option Str := none
  txHash : Option Str := none
  deriving DecidableEq

/-- The `{ valid, errors }` result of `validateDeepLink`. -/
structure DeepLinkValidation where
  valid : Bool
  errors : List Str
  deriving DecidableEq

/-- `validateDeepLink` from `deeplink.service.ts`: each present parameter is
checked against its regex and a formatted error is pushed on failure. -/
def validateDeepLink (params : DeepLinkParams) : DeepLinkValidation :=
  let errors :=
    (match params.sid with
     | some s => if SESSION_ID_REGEX s then [] else [str "Invalid session ID format: " ++ s]
     | none => []) ++
    (match params.address with
     | some a => if ADDRESS_REGEX a then [] else [str "Invalid address format: " ++ a]
     | none => []) ++
    (match params.txHash with
     | some t => if TX_HASH_REGEX t then [] else [str "Invalid transaction hash format: " ++ t]
     | none => [])
  { valid := errors.isEmpty, errors := errors }

/-- Modelled from the spec: the server-side session record — "identifier
(random hex string), associated nonce (random hex string), optional bound
wallet address, connected flag, creation timestamp" (the server's
`routes/auth.ts` is not under `src/`). -/
structure Session where
  nonce : Str
  connected : Bool
  address : Option Str
  createdAt : Nat
  deriving DecidableEq

/-- The in-memory session map, keyed by session id (first binding wins, as
later `set`s shadow earlier ones). -/
abbrev SessionStore := List (Str × Session)

/-- Modelled from the spec: `createSession()` "generates session id + nonce,
stores `{nonce, connected:false}` keyed by id" — the random id and nonce and
the clock are inputs here. -/
def createSession (store : SessionStore) (id nonce : Str) (now : Nat) : SessionStore :=
  (id, { nonce := nonce, connected := false, address := none, createdAt := now }) :: store

/-- Modelled from the spec: the signed login message, "a message containing
the nonce"; its exact wording is irrelevant, only that it embeds the nonce. -/
def messageOf (nonce : Str) : Str := str "Login nonce: " ++ nonce

/-- Modelled from the spec/docs: the `session:connected` payload
`{ sessionId, address: signerAddr }` emitted via `io.to(sessionId)`. -/
structure SessionConnectedEvent where
  room : Str
  sessionId : Str
  address : Str
  deriving DecidableEq

/-- What a `POST /verify` call produces: the HTTP success flag, the session
store after the call and the socket events emitted during it. -/
structure VerifyOutcome where
  success : Bool
  store : SessionStore
  events : List SessionConnectedEvent
  deriving DecidableEq

/-- Modelled from the spec: `verify(address, signature, sessionId)` "recovers
signer address from signature over a message containing the nonce …; compares
to claimed address; on match, marks session connected and records address;
fails (signals invalid) on mismatch or unknown session", emitting one
`session:connected` event to the room named by the session id on success.
`recover` stands for `ethers.utils.verifyMessage`. -/
def verify (recover : Str → Str → Str) (store : SessionStore)
    (address signature sessionId : Str) : VerifyOutcome :=
  match store.lookup sessionId with
  | none => { success := false, store := store, events := [] }
  | some s =>
    let signerAddr := recover (messageOf s.nonce) signature
    if signerAddr = address then
      { success := true,
        store := (sessionId, { s with connected := true, address := some signerAddr }) :: store,
        events := [{ room := sessionId, sessionId := sessionId, address := signerAddr }] }
    else
      { success := false, store := store, events := [] }

/-- Modelled from the spec: `GET /session/:id` returns `{connected, address?}`
for the stored session. -/
def getSession (store : SessionStore) (id : Str) : Option (Bool × Option Str) :=
  (store.lookup id).map (fun s => (s.connected, s.address))

/-- A request hitting the session store: either `POST /session/new` (with the
generated id/nonce and the clock as inputs) or `POST /verify`. -/
inductive SessionOp where
  | create (id nonce : Str) (now : Nat)
  | verifyReq (address signature sessionId : Str)
  deriving DecidableEq

/-- Effect of one request on the session store. -/
def stepOp (recover : Str → Str → Str) (store : SessionStore) : SessionOp → SessionStore
  | .create id nonce now => createSession store id nonce now
  | .verifyReq a sig sid => (verify recover store a sig sid).store

/-- The session store after a sequence of requests, starting from the empty
map a fresh server process holds. -/
def runOps (recover : Str → Str → Str) (ops : List SessionOp) : SessionStore :=
  ops.foldl (stepOp recover) []

/-- Whether a request is a `verify` for session `id` that succeeds against the
given store. -/
def isSuccessfulVerifyFor (recover : Str → Str → Str) (store : SessionStore)
    (op : SessionOp) (id : Str) : Bool :=
  match op with
  | .create _ _ _ => false
  | .verifyReq a sig sid => (verify recover store a sig sid).success && sid == id

/-- Whether a request sequence, run from `store`, contains no successful
`verify` for session `id`. -/
def noSuccessFor (recover : Str → Str → Str) (store : SessionStore)
    (ops : List SessionOp) (id : Str) : Bool :=
  match ops with
  | [] => true
  | op :: rest =>
    !(isSuccessfulVerifyFor recover store op id) &&
      noSuccessFor recover (stepOp recover store op) rest id

/-- Reassign the creation timestamp carried by a `create` request; `verify`
requests carry no time. -/
def retimeOp (f : Nat → Nat) : SessionOp → SessionOp
  | .create id nonce now => .create id nonce (f now)
  | .verifyReq a sig sid => .verifyReq a sig sid

/-- Equality of sessions up to the stored creation timestamp. -/
def Session.sameView (a b : Session) : Prop :=
  a.nonce = b.nonce ∧ a.connected = b.connected ∧ a.address = b.address

/-- Lift `Session.sameView` to lookup results. -/
def optSameView : Option Session → Option Session → Prop
  | none, none => True
  | some a, some b => Session.sameView a b
  | _, _ => False

/-- Two stores that agree, session by session, on everything but creation
timestamps. -/
def storesAgree (s1 s2 : SessionStore) : Prop :=
  ∀ id, optSameView (s1.lookup id) (s2.lookup id)

/-- Modelled from the spec/docs: the server generates
`sessionId = '0x' + randomBytes(8).toString('hex')` — the random bytes (each
below 256) are an input here, rendered as two lowercase hex digits apiece. -/
def generatedSessionId (bytes : List Nat) : Str :=
  str "0x" ++ bytes.flatMap (fun b => [hexDigitLower (b / 16), hexDigitLower (b % 16)])

/-- The socket `join` handler from `server/src/index.ts`: the client socket
joins the room named by the session id. -/
def joinRoom (rooms : List Str) (sessionId : Str) : List Str := sessionId :: rooms

/-- Socket.IO delivery of `io.to(room).emit(…)`: a socket receives the event
exactly when the event's room is among the rooms it has joined. -/
def receivesEvent (rooms : List Str) (e : SessionConnectedEvent) : Bool :=
  rooms.contains e.room

/-- The `{connected, address}` JSON body of a `GET /session/:id` response as
read by the polling loop. -/
structure SessionStatusResp where
  connected : Bool
  address : Option Str
  deriving DecidableEq

/-- What one timer tick of the polling loop can observe: the `authenticated`
flag it reads, and the outcome of its status fetch (`none` models a thrown
fetch error or a non-ok response). -/
structure PollTickInput where
  authenticated : Bool
  response : Option SessionStatusResp
  deriving DecidableEq

/-- Observable outcome of a polling run: the times (milliseconds after start)
at which status requests were issued, the address delivered on success, and
whether the timeout alert was shown. -/
structure PollRun where
  requests : List Nat
  connectedAddress : Option Str
  timeoutAlert : Bool
  deriving DecidableEq

/-- `maxPollAttempts = 60` from the home screen. -/
def maxPollAttempts : Nat := 60

/-- The 2000 ms `setInterval` period of the polling loop. -/
def pollIntervalMs : Nat := 2000

/-- The `sessionData.connected && sessionData.address` test of the loop body:
the address, when the response reports a connected session carrying one. -/
def goodResp : Option SessionStatusResp → Option Str
  | some r => if r.connected then r.address else none
  | none => none

/-- One timer tick of `startSessionPolling` from the home screen (the same
loop body appears inline in `handleConnectMetaMask`): `attempts` is the
current `pollAttempts` value, and `fuel` is a structural bound kept equal to
`maxPollAttempts - attempts` by the caller, so the `fuel = 0` base case is
never reached from `startSessionPolling`.  On a connected response the
interval is cleared, but the trailing attempts-ceiling check still runs with
the captured (false) `authenticated`, so the timeout alert also fires when
the success arrives exactly at the ceiling. -/
def pollGo (inputs : Nat → PollTickInput) : Nat → Nat → PollRun
  | _, 0 => { requests := [], connectedAddress := none, timeoutAlert := false }
  | attempts, fuel + 1 =>
    let inp := inputs attempts
    if inp.authenticated then
      { requests := [], connectedAddress := none, timeoutAlert := false }
    else
      let a := attempts + 1
      let t := pollIntervalMs * a
      match goodResp inp.response with
      | some addr =>
        { requests := [t], connectedAddress := some addr,
          timeoutAlert := decide (a ≥ maxPollAttempts) }
      | none =>
        if a ≥ maxPollAttempts then
          { requests := [t], connectedAddress := none, timeoutAlert := true }
        else
          let r := pollGo inputs a fuel
          { requests := t :: r.requests, connectedAddress := r.connectedAddress,
            timeoutAlert := r.timeoutAlert }

/-- `startSessionPolling` from the home screen: the polling loop started with
`pollAttempts = 0`. -/
def startSessionPolling (inputs : Nat → PollTickInput) : PollRun :=
  pollGo inputs 0 maxPollAttempts

theorem encodeURIComponent_append (a b : Str) :
    encodeURIComponent (a ++ b) = encodeURIComponent a ++ encodeURIComponent b :=
  List.flatMap_append a b _

theorem encodeURIComponent_of_unreserved {s : Str}
    (h : ∀ c ∈ s, isUnreservedURIChar c = true) : encodeURIComponent s = s := by
  induction s with
  | nil => rfl
  | cons c cs ih =>
    have hc : isUnreservedURIChar c = true := h c (List.mem_cons_self c cs)
    have hcs : ∀ x ∈ cs, isUnreservedURIChar x = true :=
      fun x hx => h x (List.mem_cons_of_mem c hx)
    simp only [encodeURIComponent, List.flatMap_cons] at *
    rw [ih hcs]
    simp [encodeURIComponentChar, hc]

theorem isUnreservedURIChar_of_hexDigit {c : Char} (h : isHexDigitChar c = true) :
    isUnreservedURIChar c = true := by
  have halnum : c.isAlphanum = true := by
    simp only [isHexDigitChar, Bool.or_eq_true, Bool.and_eq_true, decide_eq_true_eq,
      Char.le_def] at h
    simp only [Char.isAlphanum, Char.isAlpha, Char.isUpper, Char.isLower, Bool.or_eq_true,
      Bool.and_eq_true, decide_eq_true_eq, ge_iff_le]
    rcases h with (hd | ⟨h1, h2⟩) | ⟨h1, h2⟩
    · right; exact hd
    · left; right
      exact ⟨UInt32.le_trans (by decide) h1, UInt32.le_trans h2 (by decide)⟩
    · left; left
      exact ⟨UInt32.le_trans (by decide) h1, UInt32.le_trans h2 (by decide)⟩
  simp [isUnreservedURIChar, halnum]

theorem sessionIdPattern_unreserved {sid : Str} (h : SESSION_ID_PATTERN sid = true) :
    ∀ c ∈ sid, isUnreservedURIChar c = true := by
  intro c hc
  cases sid with
  | nil => exact Bool.noConfusion h
  | cons c0 s0 =>
    cases s0 with
    | nil => exact Bool.noConfusion h
    | cons c1 rest =>
      simp only [SESSION_ID_PATTERN, Bool.and_eq_true, beq_iff_eq, List.all_eq_true] at h
      obtain ⟨⟨⟨h0, h1⟩, _⟩, hall⟩ := h
      subst h0; subst h1
      simp only [List.mem_cons] at hc
      rcases hc with rfl | rfl | hc
      · decide
      · decide
      · exact isUnreservedURIChar_of_hexDigit (hall c hc)

theorem stripProtocol_eq_drop (u : Str) : ∃ k, k ≤ 8 ∧ stripProtocol u = u.drop k := by
  unfold stripProtocol
  split
  · exact ⟨8, by omega, rfl⟩
  · split
    · exact ⟨7, by omega, rfl⟩
    · exact ⟨0, by omega, (List.drop_zero u).symm⟩

theorem containsSeg_encodeBranch (p dappUrl sid : Str)
    (h : ∀ c ∈ sid, isUnreservedURIChar c = true) :
    containsSeg sid
      (p ++ encodeURIComponent (dappUrl ++ str "?sid=" ++ sid ++ str "&roomId=" ++ sid)) := by
  refine ⟨p ++ encodeURIComponent (dappUrl ++ str "?sid=" ++ sid ++ str "&roomId="), [], ?_⟩
  rw [encodeURIComponent_append (dappUrl ++ str "?sid=" ++ sid ++ str "&roomId=") sid,
    encodeURIComponent_of_unreserved h]
  simp [List.append_assoc]

theorem containsSeg_stripBranch (p dappUrl sid : Str) :
    containsSeg sid
      (p ++ stripProtocol (dappUrl ++ str "?sid=" ++ sid ++ str "&roomId=" ++ sid)) := by
  obtain ⟨k, hk, heq⟩ := stripProtocol_eq_drop (dappUrl ++ str "?sid=" ++ sid ++ str "&roomId=" ++ sid)
  have hlen : k ≤ (dappUrl ++ str "?sid=" ++ sid ++ str "&roomId=").length := by
    have h8 : (str "&roomId=").length = 8 := rfl
    simp only [List.length_append, h8]
    omega
  rw [heq, List.drop_append_of_le_length hlen]
  exact ⟨p ++ (dappUrl ++ str "?sid=" ++ sid ++ str "&roomId=").drop k, [],
    by simp [List.append_assoc]⟩

/-- C7: for every supported wallet, dapp URL and (well-formed) session id,
`buildWalletDeepLink` is a pure function of its inputs — calling it twice with
the same inputs yields the identical URL string — and the produced URL
contains the session id verbatim as a substring. -/
theorem buildWalletDeepLink_pure_embeds_sessionId :
    ∀ w ∈ SUPPORTED_WALLETS, ∀ (dappUrl sid : Str), SESSION_ID_PATTERN sid = true →
      buildWalletDeepLink w dappUrl (some sid) = buildWalletDeepLink w dappUrl (some sid) ∧
      containsSeg sid (buildWalletDeepLink w dappUrl (some sid)) := by
  intro w hw dappUrl sid hsid
  have hchars : ∀ c ∈ sid, isUnreservedURIChar c = true := sessionIdPattern_unreserved hsid
  refine ⟨rfl, ?_⟩
  simp only [SUPPORTED_WALLETS, List.mem_cons, List.not_mem_nil, or_false] at hw
  rcases hw with rfl | rfl | rfl | rfl | rfl | rfl | rfl | rfl
  · exact containsSeg_encodeBranch _ _ _ hchars
  · exact containsSeg_stripBranch _ _ _
  · exact containsSeg_encodeBranch _ _ _ hchars
  · exact containsSeg_encodeBranch _ _ _ hchars
  · exact containsSeg_stripBranch _ _ _
  · exact containsSeg_stripBranch _ _ _
  · exact containsSeg_stripBranch _ _ _
  · exact containsSeg_stripBranch _ _ _

/-- Concrete instantiation of the C7 theorem: MetaMask, a sample dapp URL and
a well-formed session id. -/
theorem buildWalletDeepLink_pure_embeds_sessionId_witness :
    SESSION_ID_PATTERN (str "0x0123456789abcdef") = true ∧
    containsSeg (str "0x0123456789abcdef")
      (buildWalletDeepLink SUPPORTED_WALLETS.headI (str "https://ex.com/index.html")
        (some (str "0x0123456789abcdef"))) :=
  ⟨by decide,
    (buildWalletDeepLink_pure_embeds_sessionId SUPPORTED_WALLETS.headI
      (by simp [SUPPORTED_WALLETS, List.headI]) (str "https://ex.com/index.html")
      (str "0x0123456789abcdef") (by decide)).2⟩

/-- C8: when the wallet is not installed (the can-this-URL-be-opened probe on
its deep-link scheme returns false), `openWallet` returns failure with the
install-prompt error message and never invokes the platform URL-opening
primitive; conversely, any open attempt implies the installation check
passed. -/
theorem openWallet_not_installed :
    ∀ (canOpenURL openThrows : Str → Bool) (wallet : WalletInfo) (dappUrl : Str)
      (sessionId : Option Str),
      (canOpenURL wallet.deepLinkScheme = false →
        (openWallet canOpenURL openThrows wallet dappUrl sessionId).1.success = false ∧
        (openWallet canOpenURL openThrows wallet dappUrl sessionId).1.error =
          some (wallet.name ++ str " is not installed. Please install it first.") ∧
        (openWallet canOpenURL openThrows wallet dappUrl sessionId).2 = []) ∧
      ((openWallet canOpenURL openThrows wallet dappUrl sessionId).2 ≠ [] →
        canOpenURL wallet.deepLinkScheme = true) := by
  intro canOpenURL openThrows wallet dappUrl sessionId
  constructor
  · intro h
    simp [openWallet, h]
  · intro h
    cases hc : canOpenURL wallet.deepLinkScheme with
    | true => rfl
    | false => exact absurd (by simp [openWallet, hc]) h

/-- Concrete instantiation of the C8 theorem: a probe that reports no wallet
installed. -/
theorem openWallet_not_installed_witness :
    (openWallet (fun _ => false) (fun _ => false) SUPPORTED_WALLETS.headI
        (str "https://ex.com/index.html") (some (str "0x0123456789abcdef"))).1.success = false ∧
    (openWallet (fun _ => false) (fun _ => false) SUPPORTED_WALLETS.headI
        (str "https://ex.com/index.html") (some (str "0x0123456789abcdef"))).2 = [] :=
  ⟨((openWallet_not_installed (fun _ => false) (fun _ => false) SUPPORTED_WALLETS.headI
      (str "https://ex.com/index.html") (some (str "0x0123456789abcdef"))).1 rfl).1,
   ((openWallet_not_installed (fun _ => false) (fun _ => false) SUPPORTED_WALLETS.headI
      (str "https://ex.com/index.html") (some (str "0x0123456789abcdef"))).1 rfl).2.2⟩

theorem hexDigitLower_isHexDigit : ∀ n < 16, isHexDigitChar (hexDigitLower n) = true := by
  decide

theorem hexPairs_length (bytes : List Nat) :
    (bytes.flatMap (fun b => [hexDigitLower (b / 16), hexDigitLower (b % 16)])).length =
      2 * bytes.length := by
  induction bytes with
  | nil => rfl
  | cons b bs ih =>
    simp only [List.flatMap_cons, List.length_append, List.length_cons, ih, List.length_nil,
      List.length_cons]
    omega

theorem hexPairs_all {bytes : List Nat} (h : ∀ b ∈ bytes, b < 256) :
    (bytes.flatMap (fun b => [hexDigitLower (b / 16), hexDigitLower (b % 16)])).all
      isHexDigitChar = true := by
  induction bytes with
  | nil => rfl
  | cons b bs ih =>
    have hb : b < 256 := h b (List.mem_cons_self b bs)
    have hdiv : b / 16 < 16 := Nat.div_lt_of_lt_mul (by omega)
    have hmod : b % 16 < 16 := Nat.mod_lt _ (by omega)
    simp only [List.flatMap_cons, List.all_append, List.all_cons, List.all_nil,
      Bool.and_eq_true]
    exact ⟨⟨hexDigitLower_isHexDigit _ hdiv, hexDigitLower_isHexDigit _ hmod, trivial⟩,
      ih (fun x hx => h x (List.mem_cons_of_mem b hx))⟩

/-- C10: every server-generated session id (`'0x'` followed by 8 random bytes
in lowercase hex) matches the client-side pattern `/^0x[a-fA-F0-9]{16}$/`,
so the deep-link validator accepts it and never raises its
"Invalid session ID format" error for a server-issued sid. -/
theorem generatedSessionId_accepted :
    ∀ bytes : List Nat, bytes.length = 8 → (∀ b ∈ bytes, b < 256) →
      SESSION_ID_PATTERN (generatedSessionId bytes) = true ∧
      validateDeepLink { sid := some (generatedSessionId bytes) } =
        { valid := true, errors := [] } := by
  intro bytes hlen hbytes
  have hp : SESSION_ID_PATTERN (generatedSessionId bytes) = true := by
    show SESSION_ID_PATTERN ('0' :: 'x' ::
      bytes.flatMap (fun b => [hexDigitLower (b / 16), hexDigitLower (b % 16)])) = true
    have h16 : (bytes.flatMap
        (fun b => [hexDigitLower (b / 16), hexDigitLower (b % 16)])).length = 16 := by
      rw [hexPairs_length, hlen]
    simp [SESSION_ID_PATTERN, h16, hexPairs_all hbytes]
  refine ⟨hp, ?_⟩
  simp [validateDeepLink, SESSION_ID_REGEX, hp]

/-- Concrete instantiation of the C10 theorem: eight sample bytes. -/
theorem generatedSessionId_accepted_witness :
    SESSION_ID_PATTERN (generatedSessionId [0, 15, 255, 171, 16, 1, 2, 3]) = true ∧
    validateDeepLink { sid := some (generatedSessionId [0, 15, 255, 171, 16, 1, 2, 3]) } =
      { valid := true, errors := [] } :=
  generatedSessionId_accepted [0, 15, 255, 171, 16, 1, 2, 3] (by decide) (by decide)

theorem lookup_cons (k : Str) (v : Session) (l : SessionStore) (id : Str) :
    ((k, v) :: l).lookup id = if k = id then some v else l.lookup id := by
  by_cases h : k = id
  · simp [List.lookup, h]
  · have hb : (id == k) = false := beq_eq_false_iff_ne.mpr (fun he => h he.symm)
    simp only [List.lookup, hb, if_neg h]

theorem verify_of_lookup_none (recover : Str → Str → Str) (store : SessionStore)
    (address signature sessionId : Str) (h : store.lookup sessionId = none) :
    verify recover store address signature sessionId =
      { success := false, store := store, events := [] } := by
  simp only [verify]
  rw [h]

theorem verify_of_lookup_match (recover : Str → Str → Str) (store : SessionStore)
    (address signature sessionId : Str) (s : Session)
    (h : store.lookup sessionId = some s)
    (heq : recover (messageOf s.nonce) signature = address) :
    verify recover store address signature sessionId =
      { success := true,
        store := (sessionId,
          { nonce := s.nonce, connected := true, address := some address,
            createdAt := s.createdAt }) :: store,
        events := [{ room := sessionId, sessionId := sessionId, address := address }] } := by
  simp only [verify]
  rw [h]
  simp [heq]

theorem verify_of_lookup_mismatch (recover : Str → Str → Str) (store : SessionStore)
    (address signature sessionId : Str) (s : Session)
    (h : store.lookup sessionId = some s)
    (hne : recover (messageOf s.nonce) signature ≠ address) :
    verify recover store address signature sessionId =
      { success := false, store := store, events := [] } := by
  simp only [verify]
  rw [h]
  simp only [if_neg hne]

/-- C2: a verify call whose recovered address differs from the claimed address
returns failure and leaves the session store exactly as it was — nonce,
connected flag and bound address of every session are unchanged, and no event
is emitted. -/
theorem verify_mismatch_atomic :
    ∀ (recover : Str → Str → Str) (store : SessionStore)
      (address signature sessionId : Str) (s : Session),
      store.lookup sessionId = some s →
      recover (messageOf s.nonce) signature ≠ address →
      verify recover store address signature sessionId =
        { success := false, store := store, events := [] } := by
  intro recover store address signature sessionId s hs hne
  exact verify_of_lookup_mismatch recover store address signature sessionId s hs hne

/-- Concrete instantiation of the C2 theorem: one stored session and a
signature recovering to a different address. -/
theorem verify_mismatch_atomic_witness :
    verify (fun _ _ => str "0xAA") (createSession [] (str "0xs1") (str "n1") 0)
        (str "0xBB") (str "sig") (str "0xs1") =
      { success := false, store := createSession [] (str "0xs1") (str "n1") 0, events := [] } :=
  verify_mismatch_atomic (fun _ _ => str "0xAA") (createSession [] (str "0xs1") (str "n1") 0)
    (str "0xBB") (str "sig") (str "0xs1")
    { nonce := str "n1", connected := false, address := none, createdAt := 0 }
    (by decide) (by decide)

/-- C3: a verify call whose session id is not in the store returns failure,
leaves the store unchanged, and in particular still stores no entry for that
session id — a failed verify never creates a session. -/
theorem verify_unknown_session :
    ∀ (recover : Str → Str → Str) (store : SessionStore)
      (address signature sessionId : Str),
      store.lookup sessionId = none →
      (verify recover store address signature sessionId).success = false ∧
      (verify recover store address signature sessionId).store = store ∧
      (verify recover store address signature sessionId).store.lookup sessionId = none := by
  intro recover store address signature sessionId h
  rw [verify_of_lookup_none recover store address signature sessionId h]
  exact ⟨rfl, rfl, h⟩

/-- Concrete instantiation of the C3 theorem: a verify against an empty
store. -/
theorem verify_unknown_session_witness :
    (verify (fun _ _ => str "0xAA") [] (str "0xAA") (str "sig") (str "0xs1")).success = false ∧
    (verify (fun _ _ => str "0xAA") [] (str "0xAA") (str "sig") (str "0xs1")).store = [] ∧
    (verify (fun _ _ => str "0xAA") [] (str "0xAA") (str "sig")
      (str "0xs1")).store.lookup (str "0xs1") = none :=
  verify_unknown_session (fun _ _ => str "0xAA") [] (str "0xAA") (str "sig") (str "0xs1") rfl

/-- C5: a successful verify emits exactly one `session:connected` event, to
the room named by the session id, carrying the recovered signer address; a
failed verify emits no event; and a socket receives an event exactly when it
has joined the event's room (in particular after `join`, the event for that
session is received). -/
theorem verify_event_emission :
    ∀ (recover : Str → Str → Str) (store : SessionStore)
      (address signature sessionId : Str),
      (∀ s : Session, store.lookup sessionId = some s →
        recover (messageOf s.nonce) signature = address →
        (verify recover store address signature sessionId).events =
          [{ room := sessionId, sessionId := sessionId, address := address }]) ∧
      ((verify recover store address signature sessionId).success = false →
        (verify recover store address signature sessionId).events = []) ∧
      (∀ rooms : List Str,
        receivesEvent (joinRoom rooms sessionId)
          { room := sessionId, sessionId := sessionId, address := address } = true) ∧
      (∀ (rooms : List Str) (e : SessionConnectedEvent),
        receivesEvent rooms e = true → e.room ∈ rooms) := by
  intro recover store address signature sessionId
  refine ⟨?_, ?_, ?_, ?_⟩
  · intro s hs heq
    rw [verify_of_lookup_match recover store address signature sessionId s hs heq]
  · intro hfail
    cases hs : store.lookup sessionId with
    | none => rw [verify_of_lookup_none recover store address signature sessionId hs]
    | some s =>
      by_cases heq : recover (messageOf s.nonce) signature = address
      · rw [verify_of_lookup_match recover store address signature sessionId s hs heq] at hfail
        exact absurd hfail (by simp)
      · rw [verify_of_lookup_mismatch recover store address signature sessionId s hs heq]
  · intro rooms
    simp [receivesEvent, joinRoom]
  · intro rooms e h
    simpa [receivesEvent] using h

/-- Concrete instantiation of the C5 theorem: a successful verify on a stored
session, observed by a socket that joined the session's room. -/
theorem verify_event_emission_witness :
    (verify (fun _ _ => str "0xAA") (createSession [] (str "0xs1") (str "n1") 0)
        (str "0xAA") (str "sig") (str "0xs1")).events =
      [{ room := str "0xs1", sessionId := str "0xs1", address := str "0xAA" }] ∧
    receivesEvent (joinRoom [] (str "0xs1"))
      { room := str "0xs1", sessionId := str "0xs1", address := str "0xAA" } = true :=
  ⟨(verify_event_emission (fun _ _ => str "0xAA") (createSession [] (str "0xs1") (str "n1") 0)
      (str "0xAA") (str "sig") (str "0xs1")).1
      { nonce := str "n1", connected := false, address := none, createdAt := 0 }
      (by decide) (by decide),
   (verify_event_emission (fun _ _ => str "0xAA") (createSession [] (str "0xs1") (str "n1") 0)
      (str "0xAA") (str "sig") (str "0xs1")).2.2.1 []⟩

theorem freshView_preserved (recover : Str → Str → Str) :
    ∀ (ops : List SessionOp) (store : SessionStore) (id : Str),
      getSession store id = some (false, none) →
      noSuccessFor recover store ops id = true →
      getSession (ops.foldl (stepOp recover) store) id = some (false, none) := by
  intro ops
  induction ops with
  | nil => intro store id h _; exact h
  | cons op rest ih =>
    intro store id h hns
    simp only [noSuccessFor, Bool.and_eq_true, Bool.not_eq_true'] at hns
    obtain ⟨hflag, hns'⟩ := hns
    rw [List.foldl_cons]
    apply ih _ _ _ hns'
    cases op with
    | create i n t =>
      by_cases hii : i = id
      · subst hii
        show getSession (createSession store i n t) i = some (false, none)
        simp [getSession, createSession, lookup_cons]
      · show getSession (createSession store i n t) id = some (false, none)
        simpa [getSession, createSession, lookup_cons, hii] using h
    | verifyReq a sig sid =>
      show getSession (verify recover store a sig sid).store id = some (false, none)
      cases hl : store.lookup sid with
      | none => rw [verify_of_lookup_none recover store a sig sid hl]; exact h
      | some t =>
        by_cases heq : recover (messageOf t.nonce) sig = a
        · have hsucc :
              isSuccessfulVerifyFor recover store (.verifyReq a sig sid) id =
                ((sid == id) : Bool) := by
            simp only [isSuccessfulVerifyFor,
              verify_of_lookup_match recover store a sig sid t hl heq, Bool.true_and]
          rw [hsucc] at hflag
          have hne : sid ≠ id := by simpa using hflag
          rw [verify_of_lookup_match recover store a sig sid t hl heq]
          simpa [getSession, lookup_cons, hne] using h
        · rw [verify_of_lookup_mismatch recover store a sig sid t hl heq]
          exact h

/-- C4: a session created by `POST /session/new` is stored with
`connected:false`; `GET /session/:id` keeps returning `connected:false` (and
no address) across any request sequence containing no successful verify for
that session; and after a successful verify, `GET /session/:id` returns
`connected:true` together with the bound address. -/
theorem session_connected_lifecycle :
    ∀ recover : Str → Str → Str,
      (∀ (store : SessionStore) (id nonce : Str) (now : Nat),
        getSession (createSession store id nonce now) id = some (false, none)) ∧
      (∀ (store : SessionStore) (ops : List SessionOp) (id : Str),
        getSession store id = some (false, none) →
        noSuccessFor recover store ops id = true →
        getSession (ops.foldl (stepOp recover) store) id = some (false, none)) ∧
      (∀ (store : SessionStore) (address signature sessionId : Str) (s : Session),
        store.lookup sessionId = some s →
        recover (messageOf s.nonce) signature = address →
        getSession (verify recover store address signature sessionId).store sessionId =
          some (true, some address)) := by
  intro recover
  refine ⟨?_, ?_, ?_⟩
  · intro store id nonce now
    simp [getSession, createSession, lookup_cons]
  · intro store ops id h hns
    exact freshView_preserved recover ops store id h hns
  · intro store address signature sessionId s hs heq
    rw [verify_of_lookup_match recover store address signature sessionId s hs heq]
    simp [getSession, lookup_cons]

/-- Concrete instantiation of the C4 theorem: a fresh session reads back as
not connected, and reads back as connected with the bound address after a
successful verify. -/
theorem session_connected_lifecycle_witness :
    getSession (createSession [] (str "0xs1") (str "n1") 0) (str "0xs1") = some (false, none) ∧
    getSession (verify (fun _ _ => str "0xAA") (createSession [] (str "0xs1") (str "n1") 0)
        (str "0xAA") (str "sig") (str "0xs1")).store (str "0xs1") =
      some (true, some (str "0xAA")) :=
  ⟨(session_connected_lifecycle (fun _ _ => str "0xAA")).1 [] (str "0xs1") (str "n1") 0,
   (session_connected_lifecycle (fun _ _ => str "0xAA")).2.2
     (createSession [] (str "0xs1") (str "n1") 0) (str "0xAA") (str "sig") (str "0xs1")
     { nonce := str "n1", connected := false, address := none, createdAt := 0 }
     (by decide) (by decide)⟩

theorem bindingInv_step (recover : Str → Str → Str) (store : SessionStore)
    (hInv : ∀ id s, store.lookup id = some s → s.connected = true →
      ∃ signature, s.address = some (recover (messageOf s.nonce) signature)) (op : SessionOp) :
    ∀ id s, (stepOp recover store op).lookup id = some s → s.connected = true →
      ∃ signature, s.address = some (recover (messageOf s.nonce) signature) := by
  intro id s hs hconn
  cases op with
  | create i n t =>
    rw [show stepOp recover store (.create i n t) = createSession store i n t from rfl,
      createSession, lookup_cons] at hs
    split at hs
    · cases hs
      exact Bool.noConfusion hconn
    · exact hInv id s hs hconn
  | verifyReq a sig sid =>
    rw [show stepOp recover store (.verifyReq a sig sid) =
      (verify recover store a sig sid).store from rfl] at hs
    cases hl : store.lookup sid with
    | none =>
      rw [verify_of_lookup_none recover store a sig sid hl] at hs
      exact hInv id s hs hconn
    | some t =>
      by_cases heq : recover (messageOf t.nonce) sig = a
      · rw [verify_of_lookup_match recover store a sig sid t hl heq, lookup_cons] at hs
        split at hs
        · cases hs
          exact ⟨sig, by rw [heq]⟩
        · exact hInv id s hs hconn
      · rw [verify_of_lookup_mismatch recover store a sig sid t hl heq] at hs
        exact hInv id s hs hconn

theorem bindingInv_run (recover : Str → Str → Str) (ops : List SessionOp) :
    ∀ store : SessionStore,
      (∀ id s, store.lookup id = some s → s.connected = true →
        ∃ signature, s.address = some (recover (messageOf s.nonce) signature)) →
      ∀ id s, (ops.foldl (stepOp recover) store).lookup id = some s → s.connected = true →
        ∃ signature, s.address = some (recover (messageOf s.nonce) signature) := by
  induction ops with
  | nil => intro store h; exact h
  | cons op rest ih =>
    intro store h
    rw [List.foldl_cons]
    exact ih _ (bindingInv_step recover store h op)

/-- C1: over every sequence of createSession and verify requests from a fresh
server, every connected session's bound address is the address recovered by
signature recovery over the message containing that session's nonce; and any
single step that newly binds an address is a verify request for that session
whose recovered address passed the equality check against the claimed
address. -/
theorem session_binding_invariant :
    ∀ (recover : Str → Str → Str) (ops : List SessionOp) (id : Str) (s : Session),
      ((runOps recover ops).lookup id = some s → s.connected = true →
        ∃ signature, s.address = some (recover (messageOf s.nonce) signature)) ∧
      (∀ (store : SessionStore) (op : SessionOp) (s' : Session) (a : Str),
        store.lookup id = some s → (stepOp recover store op).lookup id = some s' →
        s'.address = some a → s.address ≠ some a →
        ∃ signature, op = .verifyReq a signature id ∧
          recover (messageOf s.nonce) signature = a) := by
  intro recover ops id s
  constructor
  · intro hs hconn
    refine bindingInv_run recover ops [] ?_ id s hs hconn
    intro id' s' h
    exact absurd h (by simp [List.lookup])
  · intro store op s' a hs hs' ha hne
    cases op with
    | create i n t =>
      rw [show stepOp recover store (.create i n t) = createSession store i n t from rfl,
        createSession, lookup_cons] at hs'
      split at hs'
      · cases hs'
        exact Option.noConfusion ha
      · rw [hs] at hs'
        cases hs'
        exact absurd ha hne
    | verifyReq a' sig sid =>
      rw [show stepOp recover store (.verifyReq a' sig sid) =
        (verify recover store a' sig sid).store from rfl] at hs'
      cases hl : store.lookup sid with
      | none =>
        rw [verify_of_lookup_none recover store a' sig sid hl] at hs'
        rw [hs] at hs'
        cases hs'
        exact absurd ha hne
      | some t =>
        by_cases heq : recover (messageOf t.nonce) sig = a'
        · rw [verify_of_lookup_match recover store a' sig sid t hl heq, lookup_cons] at hs'
          split at hs'
          · rename_i hsid
            subst hsid
            cases hs'
            have hts : t = s := by
              rw [hs] at hl
              exact ((Option.some.injEq _ _).mp hl).symm
            subst hts
            have haa : a' = a := (Option.some.injEq _ _).mp ha
            subst haa
            exact ⟨sig, rfl, heq⟩
          · rw [hs] at hs'
            cases hs'
            exact absurd ha hne
        · rw [verify_of_lookup_mismatch recover store a' sig sid t hl heq] at hs'
          rw [hs] at hs'
          cases hs'
          exact absurd ha hne

/-- Concrete instantiation of the C1 theorem: a create followed by a
successful verify, whose bound address is the recovered one. -/
theorem session_binding_invariant_witness :
    (runOps (fun (_ _ : Str) => str "0xAA")
        [.create (str "0xs1") (str "n1") 0,
         .verifyReq (str "0xAA") (str "sig") (str "0xs1")]).lookup (str "0xs1") =
      some { nonce := str "n1", connected := true, address := some (str "0xAA"),
             createdAt := 0 } ∧
    ∃ signature : Str,
      ({ nonce := str "n1", connected := true, address := some (str "0xAA"),
         createdAt := 0 } : Session).address =
        some ((fun (_ _ : Str) => str "0xAA") (messageOf (str "n1")) signature) :=
  ⟨by decide,
   (session_binding_invariant (fun (_ _ : Str) => str "0xAA")
      [.create (str "0xs1") (str "n1") 0,
       .verifyReq (str "0xAA") (str "sig") (str "0xs1")] (str "0xs1")
      { nonce := str "n1", connected := true, address := some (str "0xAA"),
        createdAt := 0 }).1 (by decide) rfl⟩

theorem storesAgree_step (recover : Str → Str → Str) (f : Nat → Nat)
    {s1 s2 : SessionStore} (h : storesAgree s1 s2) (op : SessionOp) :
    storesAgree (stepOp recover s1 (retimeOp f op)) (stepOp recover s2 op) := by
  intro id
  cases op with
  | create i n t =>
    show optSameView ((createSession s1 i n (f t)).lookup id)
      ((createSession s2 i n t).lookup id)
    rw [createSession, createSession, lookup_cons, lookup_cons]
    by_cases hii : i = id
    · simp [hii, optSameView, Session.sameView]
    · simp only [if_neg hii]
      exact h id
  | verifyReq a sig sid =>
    show optSameView ((verify recover s1 a sig sid).store.lookup id)
      ((verify recover s2 a sig sid).store.lookup id)
    have hsid := h sid
    cases hl1 : s1.lookup sid with
    | none =>
      cases hl2 : s2.lookup sid with
      | none =>
        rw [verify_of_lookup_none recover s1 a sig sid hl1,
          verify_of_lookup_none recover s2 a sig sid hl2]
        exact h id
      | some t2 =>
        rw [hl1, hl2] at hsid
        exact absurd hsid (by simp [optSameView])
    | some t1 =>
      cases hl2 : s2.lookup sid with
      | none =>
        rw [hl1, hl2] at hsid
        exact absurd hsid (by simp [optSameView])
      | some t2 =>
        rw [hl1, hl2] at hsid
        obtain ⟨hn, hc, ha⟩ := (hsid : Session.sameView t1 t2)
        by_cases heq : recover (messageOf t2.nonce) sig = a
        · have heq1 : recover (messageOf t1.nonce) sig = a := by rw [hn]; exact heq
          rw [verify_of_lookup_match recover s1 a sig sid t1 hl1 heq1,
            verify_of_lookup_match recover s2 a sig sid t2 hl2 heq,
            lookup_cons, lookup_cons]
          by_cases hii : sid = id
          · simp [hii, optSameView, Session.sameView, hn]
          · simp only [if_neg hii]
            exact h id
        · have hne1 : recover (messageOf t1.nonce) sig ≠ a := by rw [hn]; exact heq
          rw [verify_of_lookup_mismatch recover s1 a sig sid t1 hl1 hne1,
            verify_of_lookup_mismatch recover s2 a sig sid t2 hl2 heq]
          exact h id

theorem storesAgree_run (recover : Str → Str → Str) (f : Nat → Nat) (ops : List SessionOp) :
    ∀ {s1 s2 : SessionStore}, storesAgree s1 s2 →
      storesAgree ((ops.map (retimeOp f)).foldl (stepOp recover) s1)
        (ops.foldl (stepOp recover) s2) := by
  induction ops with
  | nil => intro s1 s2 h; exact h
  | cons op rest ih =>
    intro s1 s2 h
    rw [List.map_cons, List.foldl_cons, List.foldl_cons]
    exact ih (storesAgree_step recover f h op)

theorem getSession_eq_of_agree {s1 s2 : SessionStore} (h : storesAgree s1 s2) (id : Str) :
    getSession s1 id = getSession s2 id := by
  have hid := h id
  cases h1 : s1.lookup id with
  | none =>
    cases h2 : s2.lookup id with
    | none => simp [getSession, h1, h2]
    | some t =>
      rw [h1, h2] at hid
      exact absurd hid (by simp [optSameView])
  | some t1 =>
    cases h2 : s2.lookup id with
    | none =>
      rw [h1, h2] at hid
      exact absurd hid (by simp [optSameView])
    | some t2 =>
      rw [h1, h2] at hid
      obtain ⟨hn, hc, ha⟩ := (hid : Session.sameView t1 t2)
      simp [getSession, h1, h2, hc, ha]

/-- C9: no session-store operation expires or removes a session based on
elapsed time — the state observable through `GET /session/:id` is independent
of every creation timestamp (retiming all create requests changes nothing),
and a session is still served unchanged arbitrarily far past the 10-minute
`SESSION_TIMEOUT` constant, which no store operation consults. -/
theorem session_store_time_independent :
    SESSION_TIMEOUT = 600000 ∧
    (∀ (recover : Str → Str → Str) (f : Nat → Nat) (ops : List SessionOp) (id : Str),
      getSession (runOps recover (ops.map (retimeOp f))) id =
        getSession (runOps recover ops) id) ∧
    (∀ (store : SessionStore) (id : Str) (s : Session) (now : Nat),
      store.lookup id = some s → s.createdAt + SESSION_TIMEOUT ≤ now →
      getSession store id = some (s.connected, s.address)) := by
  refine ⟨rfl, ?_, ?_⟩
  · intro recover f ops id
    exact getSession_eq_of_agree (@storesAgree_run recover f ops [] [] (fun _ => trivial)) id
  · intro store id s now hs _
    simp [getSession, hs]

/-- Concrete instantiation of the C9 theorem: shifting a create's timestamp
by ten hours changes nothing observable, and a session is still served long
past `SESSION_TIMEOUT`. -/
theorem session_store_time_independent_witness :
    getSession (runOps (fun (_ _ : Str) => str "0xAA")
        ([SessionOp.create (str "0xs1") (str "n1") 0].map (retimeOp (fun t => t + 36000000))))
      (str "0xs1") =
      getSession (runOps (fun (_ _ : Str) => str "0xAA")
        [SessionOp.create (str "0xs1") (str "n1") 0]) (str "0xs1") ∧
    getSession [(str "0xs1",
        { nonce := str "n1", connected := false, address := none, createdAt := 0 })]
      (str "0xs1") = some (false, none) :=
  ⟨(session_store_time_independent.2.1 (fun (_ _ : Str) => str "0xAA")
      (fun t => t + 36000000) [SessionOp.create (str "0xs1") (str "n1") 0] (str "0xs1")),
   session_store_time_independent.2.2
     [(str "0xs1", { nonce := str "n1", connected := false, address := none, createdAt := 0 })]
     (str "0xs1")
     { nonce := str "n1", connected := false, address := none, createdAt := 0 }
     36000000 (by decide) (by decide)⟩

theorem pollGo_step_auth (inputs : Nat → PollTickInput) (attempts n : Nat)
    (hauth : (inputs attempts).authenticated = true) :
    pollGo inputs attempts (n + 1) =
      { requests := [], connectedAddress := none, timeoutAlert := false } := by
  simp only [pollGo]
  rw [if_pos hauth]

theorem pollGo_step_good (inputs : Nat → PollTickInput) (attempts n : Nat) (addr : Str)
    (hauth : (inputs attempts).authenticated = false)
    (hg : goodResp (inputs attempts).response = some addr) :
    pollGo inputs attempts (n + 1) =
      { requests := [pollIntervalMs * (attempts + 1)], connectedAddress := some addr,
        timeoutAlert := decide (attempts + 1 ≥ maxPollAttempts) } := by
  simp only [pollGo]
  rw [if_neg (by simp [hauth]), hg]

theorem pollGo_step_ceiling (inputs : Nat → PollTickInput) (attempts n : Nat)
    (hauth : (inputs attempts).authenticated = false)
    (hg : goodResp (inputs attempts).response = none)
    (hceil : attempts + 1 ≥ maxPollAttempts) :
    pollGo inputs attempts (n + 1) =
      { requests := [pollIntervalMs * (attempts + 1)], connectedAddress := none,
        timeoutAlert := true } := by
  simp only [pollGo]
  rw [if_neg (by simp [hauth]), hg]
  simp [hceil]

theorem pollGo_step_cons (inputs : Nat → PollTickInput) (attempts n : Nat)
    (hauth : (inputs attempts).authenticated = false)
    (hg : goodResp (inputs attempts).response = none)
    (hceil : ¬attempts + 1 ≥ maxPollAttempts) :
    pollGo inputs attempts (n + 1) =
      { requests := pollIntervalMs * (attempts + 1) :: (pollGo inputs (attempts + 1) n).requests,
        connectedAddress := (pollGo inputs (attempts + 1) n).connectedAddress,
        timeoutAlert := (pollGo inputs (attempts + 1) n).timeoutAlert } := by
  simp only [pollGo]
  rw [if_neg (by simp [hauth]), hg]
  simp [hceil]

theorem pollGo_length_le (inputs : Nat → PollTickInput) :
    ∀ (fuel attempts : Nat), (pollGo inputs attempts fuel).requests.length ≤ fuel := by
  intro fuel
  induction fuel with
  | zero => intro attempts; simp [pollGo]
  | succ n ih =>
    intro attempts
    by_cases hauth : (inputs attempts).authenticated = true
    · rw [pollGo_step_auth inputs attempts n hauth]
      simp
    · have hauth' : (inputs attempts).authenticated = false := by simpa using hauth
      cases hg : goodResp (inputs attempts).response with
      | some addr =>
        rw [pollGo_step_good inputs attempts n addr hauth' hg]
        simp
      | none =>
        by_cases hceil : attempts + 1 ≥ maxPollAttempts
        · rw [pollGo_step_ceiling inputs attempts n hauth' hg hceil]
          simp
        · rw [pollGo_step_cons inputs attempts n hauth' hg hceil]
          have := ih (attempts + 1)
          simp only [List.length_cons]
          omega

theorem pollGo_requests_times (inputs : Nat → PollTickInput) :
    ∀ (fuel attempts : Nat),
      (pollGo inputs attempts fuel).requests =
        (List.range' (attempts + 1) (pollGo inputs attempts fuel).requests.length).map
          (fun a => pollIntervalMs * a) := by
  intro fuel
  induction fuel with
  | zero => intro attempts; simp [pollGo]
  | succ n ih =>
    intro attempts
    by_cases hauth : (inputs attempts).authenticated = true
    · rw [pollGo_step_auth inputs attempts n hauth]
      simp
    · have hauth' : (inputs attempts).authenticated = false := by simpa using hauth
      cases hg : goodResp (inputs attempts).response with
      | some addr =>
        rw [pollGo_step_good inputs attempts n addr hauth' hg]
        simp [List.range']
      | none =>
        by_cases hceil : attempts + 1 ≥ maxPollAttempts
        · rw [pollGo_step_ceiling inputs attempts n hauth' hg hceil]
          simp [List.range']
        · rw [pollGo_step_cons inputs attempts n hauth' hg hceil]
          simp only [List.length_cons]
          rw [List.range'_succ, List.map_cons]
          exact congrArg _ (ih (attempts + 1))

theorem pollGo_connected_at (inputs : Nat → PollTickInput) :
    ∀ (k fuel attempts : Nat) (addr : Str),
      attempts + fuel = maxPollAttempts → k < fuel →
      (∀ j, attempts ≤ j → j < attempts + k →
        (inputs j).authenticated = false ∧ goodResp (inputs j).response = none) →
      (inputs (attempts + k)).authenticated = false →
      goodResp (inputs (attempts + k)).response = some addr →
      (pollGo inputs attempts fuel).requests.length = k + 1 ∧
      (pollGo inputs attempts fuel).connectedAddress = some addr := by
  intro k
  induction k with
  | zero =>
    intro fuel attempts addr hsum hk hprev hauth hgood
    cases fuel with
    | zero => omega
    | succ n =>
      rw [Nat.add_zero] at hauth hgood
      rw [pollGo_step_good inputs attempts n addr hauth hgood]
      exact ⟨rfl, rfl⟩
  | succ k ih =>
    intro fuel attempts addr hsum hk hprev hauth hgood
    cases fuel with
    | zero => omega
    | succ n =>
      have h0 := hprev attempts (le_refl _) (by omega)
      have hceil : ¬attempts + 1 ≥ maxPollAttempts := by
        have hM : maxPollAttempts = 60 := rfl
        omega
      have hrec := ih n (attempts + 1) addr (by omega) (by omega)
        (fun j hj1 hj2 => hprev j (by omega) (by omega))
        (by rw [show attempts + 1 + k = attempts + (k + 1) from by omega]; exact hauth)
        (by rw [show attempts + 1 + k = attempts + (k + 1) from by omega]; exact hgood)
      rw [pollGo_step_cons inputs attempts n h0.1 h0.2 hceil]
      simp only [List.length_cons, hrec.1, hrec.2]
      exact ⟨trivial, trivial⟩

theorem pollGo_timeout (inputs : Nat → PollTickInput) :
    ∀ (fuel attempts : Nat), attempts + fuel = maxPollAttempts → 1 ≤ fuel →
      (∀ j, attempts ≤ j → j < maxPollAttempts →
        (inputs j).authenticated = false ∧ goodResp (inputs j).response = none) →
      (pollGo inputs attempts fuel).requests.length = fuel ∧
      (pollGo inputs attempts fuel).connectedAddress = none ∧
      (pollGo inputs attempts fuel).timeoutAlert = true := by
  intro fuel
  induction fuel with
  | zero => intro attempts _ h1; omega
  | succ n ih =>
    intro attempts hsum _ hall
    have hM : maxPollAttempts = 60 := rfl
    have h0 := hall attempts (le_refl _) (by omega)
    by_cases hceil : attempts + 1 ≥ maxPollAttempts
    · have hn0 : n = 0 := by omega
      subst hn0
      rw [pollGo_step_ceiling inputs attempts 0 h0.1 h0.2 hceil]
      exact ⟨rfl, rfl, rfl⟩
    · have hn : 1 ≤ n := by omega
      have hrec := ih (attempts + 1) (by omega) hn (fun j hj1 hj2 => hall j (by omega) hj2)
      rw [pollGo_step_cons inputs attempts n h0.1 h0.2 hceil]
      simp only [List.length_cons, hrec.1, hrec.2.1, hrec.2.2]
      exact ⟨trivial, trivial, trivial⟩

theorem range'_one_map_mul (c n : Nat) :
    (List.range' 1 n).map (fun a => c * a) = (List.range n).map (fun i => c * (i + 1)) := by
  rw [List.range'_eq_map_range, List.map_map]
  exact List.map_congr_left (fun i _ => by simp [Nat.add_comm])

/-- C6: the polling loop issues status requests at the fixed 2-second cadence
(the n-th request at time 2000·(n+1) ms), never issues more than 60 requests,
stops issuing as soon as a response reports connected with an address
(delivering that address), and when all 60 attempts elapse without such a
response it stops and surfaces the timeout alert. -/
theorem polling_bounded_and_stops :
    ∀ inputs : Nat → PollTickInput,
      (startSessionPolling inputs).requests.length ≤ maxPollAttempts ∧
      (startSessionPolling inputs).requests =
        (List.range (startSessionPolling inputs).requests.length).map
          (fun i => pollIntervalMs * (i + 1)) ∧
      (∀ (k : Nat) (addr : Str), k < maxPollAttempts →
        (∀ j, j < k →
          (inputs j).authenticated = false ∧ goodResp (inputs j).response = none) →
        (inputs k).authenticated = false → goodResp (inputs k).response = some addr →
        (startSessionPolling inputs).requests.length = k + 1 ∧
        (startSessionPolling inputs).connectedAddress = some addr) ∧
      ((∀ k, k < maxPollAttempts →
          (inputs k).authenticated = false ∧ goodResp (inputs k).response = none) →
        (startSessionPolling inputs).requests.length = maxPollAttempts ∧
        (startSessionPolling inputs).connectedAddress = none ∧
        (startSessionPolling inputs).timeoutAlert = true) := by
  intro inputs
  refine ⟨?_, ?_, ?_, ?_⟩
  · exact pollGo_length_le inputs maxPollAttempts 0
  · have h := pollGo_requests_times inputs maxPollAttempts 0
    rw [Nat.zero_add] at h
    have h2 : (pollGo inputs 0 maxPollAttempts).requests =
        (List.range (pollGo inputs 0 maxPollAttempts).requests.length).map
          (fun i => pollIntervalMs * (i + 1)) := by
      conv_lhs => rw [h]
      rw [range'_one_map_mul]
    exact h2
  · intro k addr hk hprev hauth hgood
    exact pollGo_connected_at inputs k maxPollAttempts 0 addr rfl hk
      (fun j _ hj2 => hprev j (by omega))
      (by rw [Nat.zero_add]; exact hauth)
      (by rw [Nat.zero_add]; exact hgood)
  · intro hall
    exact pollGo_timeout inputs maxPollAttempts 0 rfl (by decide)
      (fun j _ hj2 => hall j hj2)

/-- Concrete instantiation of the C6 theorem: a run whose third status
response reports the connection stops after exactly three requests. -/
theorem polling_bounded_and_stops_witness :
    (startSessionPolling (fun k =>
      { authenticated := false,
        response := if k = 2 then some { connected := true, address := some (str "0xAA") }
          else none })).requests.length = 2 + 1 ∧
    (startSessionPolling (fun k =>
      { authenticated := false,
        response := if k = 2 then some { connected := true, address := some (str "0xAA") }
          else none })).connectedAddress = some (str "0xAA") :=
  (polling_bounded_and_stops (fun k =>
      { authenticated := false,
        response := if k = 2 then some { connected := true, address := some (str "0xAA") }
          else none })).2.2.1 2 (str "0xAA") (by decide) (by decide) (by decide) (by decide)

end RnWallet
